import Mathlib

/-!
# Verification of the docker test-utilities container lifecycle core

A shallow embedding of `src/docker.rs`: the port-spec normalizer
(`canonicalize_port`), the host-port resolver
(`ContainerInspectResponse.get_host_port`), the container spec builder
(`Builder`), the build operation (`Builder.build_disposable`, with the
runtime's responses passed in explicitly), URL construction on
`ContainerHandle`, and the teardown effect of `Drop`.

Rust `String`s become Lean `String`s; `Option<T>` becomes `Option T`;
the bollard `PortMap` (a `HashMap<String, Option<Vec<PortBinding>>>`)
becomes an association list with unique keys, looked up by first match
(equivalent to hash lookup since keys are unique).
-/

namespace DockerUtils

/-- Embeds bollard's `PortBinding`: both fields are optional strings. -/
structure PortBinding where
  host_ip : Option String
  host_port : Option String
  deriving Repr, DecidableEq

/-- The port map of an inspection: container-port key to optional binding
list, as in bollard's `PortMap = HashMap<String, Option<Vec<PortBinding>>>`. -/
abbrev PortMap := List (String × Option (List PortBinding))

/-- Embeds bollard's `NetworkSettings`, restricted to the `ports` field,
the only one the repository reads. -/
structure NetworkSettings where
  ports : Option PortMap
  deriving Repr, DecidableEq

/-- Embeds bollard's `ContainerInspectResponse`, restricted to the fields
the repository reads: `network_settings`, `name` and `id`. -/
structure ContainerInspectResponse where
  network_settings : Option NetworkSettings
  name : Option String
  id : String
  deriving Repr, DecidableEq

/-- Embeds `canonicalize_port` from `src/docker.rs`: if the port string
already contains a '/' it is returned unchanged, otherwise "/tcp" is
appended.  Rust's `str::contains('/')` is character membership. -/
def canonicalize_port (port : String) : String :=
  if port.toList.contains '/' then port else port ++ "/tcp"

/-- The loopback-alias rewriting inside `get_host_port`: "localhost" and
"127.0.0.1" are rewritten to "0.0.0.0" because docker reports bindings
against the wildcard interface. -/
def normalize_host_ip (ip : String) : String :=
  if ip = "localhost" ∨ ip = "127.0.0.1" then "0.0.0.0" else ip

/-- The inner loop of `get_host_port` over a binding list: return the
`host_port` of the first binding whose `host_ip` equals the (already
normalized) requested interface; `none` when no binding matches. -/
def scanBindings (hip : Option String) : List PortBinding → Option String
  | [] => none
  | b :: bs => if b.host_ip = hip then b.host_port else scanBindings hip bs

/-- First-match lookup in the port map, as the outer loop of
`get_host_port` does over the `HashMap` (whose keys are unique). -/
def lookupPort (port : String) : PortMap → Option (Option (List PortBinding))
  | [] => none
  | (k, v) :: rest => if k = port then some v else lookupPort port rest

/-- Embeds `ContainerInspectResponseExt::get_host_port`: canonicalize the
port, normalize the host interface, look the port up in the inspection's
port map, and scan its binding list for the matching interface.  Every
absence case yields `none`; the Lean function is total, matching the
Rust code's freedom from panics on this path. -/
def ContainerInspectResponse.get_host_port
    (r : ContainerInspectResponse) (host_ip : Option String) (port : String) :
    Option String :=
  let port := canonicalize_port port
  let host_ip := host_ip.map normalize_host_ip
  match r.network_settings with
  | none => none
  | some ns =>
    match ns.ports with
    | none => none
    | some pm =>
      match lookupPort port pm with
      | none => none
      | some none => none
      | some (some bs) => scanBindings host_ip bs

/-- Embeds `ContainerInspectResponseExt::get_name`: strip one leading "/"
from the reported name, when present. -/
def ContainerInspectResponse.get_name (r : ContainerInspectResponse) :
    Option String :=
  r.name.map (fun n => if n.startsWith "/" then n.drop 1 else n)

/-- Embeds the `Builder` struct, with the bollard `Config`/`HostConfig`
fields the repository touches flattened in: `image` and `auto_remove`
from `Config`/`HostConfig`, `port_bindings` and `binds` from
`HostConfig`, `create_name` from `CreateContainerOptions`, plus the
builder's own `protocol` and `default_port`. -/
structure Builder where
  image : Option String
  auto_remove : Option Bool
  port_bindings : Option PortMap
  binds : Option (List String)
  create_name : Option String
  protocol : Option String
  default_port : Option String

/-- Embeds `Builder::new`: set the image, infer the protocol from the
two-entry static table ("mongo" ↦ "mongodb", "redis" ↦ "redis", anything
else ↦ none), enable auto-remove, leave everything else unset. -/
def Builder.new (image : String) : Builder :=
  { image := some image
    auto_remove := some true
    port_bindings := none
    binds := none
    create_name := none
    protocol :=
      if image = "mongo" then some "mongodb"
      else if image = "redis" then some "redis"
      else none
    default_port := none }

/-- The `port_bindings` update inside `bind_port`: if the key is present
with a `Some` list, push the binding; otherwise insert (or overwrite a
`None` entry with) a fresh singleton list, as `HashMap::insert` does. -/
def pushBinding (port : String) (binding : PortBinding) :
    PortMap → PortMap
  | [] => [(port, some [binding])]
  | (k, v) :: rest =>
    if k = port then
      match v with
      | some bs => (k, some (bs ++ [binding])) :: rest
      | none => (k, some [binding]) :: rest
    else (k, v) :: pushBinding port binding rest

/-- Embeds `Builder::bind_port`: canonicalize the container port, default
the host port to the (canonicalized) container port when omitted, and
record the binding against host interface "localhost". -/
def Builder.bind_port (b : Builder) (host_port : Option String) (port : String) :
    Builder :=
  let port := canonicalize_port port
  let host_ip := "localhost"
  let host_port := host_port.getD port
  let binding : PortBinding := ⟨some host_ip, some host_port⟩
  let pbs := b.port_bindings.getD []
  { b with port_bindings := some (pushBinding port binding pbs) }

/-- Embeds `Builder::bind_port_as_default`: canonicalize the port, record
it as the default-access port, then delegate to `bind_port` (which
canonicalizes again — idempotently). -/
def Builder.bind_port_as_default (b : Builder) (host_port : Option String)
    (port : String) : Builder :=
  let port := canonicalize_port port
  Builder.bind_port { b with default_port := some port } host_port port

/-- Embeds `Builder::protocol`: override the inferred protocol. -/
def Builder.protocolSet (b : Builder) (protocol : String) : Builder :=
  { b with protocol := some protocol }

/-- Embeds the `ContainerHandle` struct (minus the live `docker` client,
which only serves to issue the runtime calls that the embedding passes
in explicitly). -/
structure ContainerHandle where
  container_id : String
  name : Option String
  host_ip : String
  default_host_port : Option String
  protocol : Option String

/-- Embeds `ContainerHandle::url`.  The Rust code unwraps `protocol` and
panics when it is absent; the embedding returns `none` in exactly that
case (fail-loudly), and otherwise the formatted URL: with a default host
port `"{protocol}://{host}:{port}/"`, without one `"{protocol}://{host}/"`. -/
def ContainerHandle.url (h : ContainerHandle) : Option String :=
  h.protocol.map (fun protocol =>
    match h.default_host_port with
    | some port => protocol ++ "://" ++ h.host_ip ++ ":" ++ port ++ "/"
    | none => protocol ++ "://" ++ h.host_ip ++ "/")

/-- Embeds `ContainerHandle::url_by`.  The fresh inspection that the Rust
code fetches from the runtime is passed in as `info`.  The outer `Option`
is `none` exactly when the Rust code would panic (absent protocol); the
inner `Option` is the resolved-or-absent result: `none` when the port
does not resolve against the handle's host interface, otherwise
`"{protocol}://{host}:{host_port}"` (note: no trailing slash in the
source). -/
def ContainerHandle.url_by (h : ContainerHandle) (info : ContainerInspectResponse)
    (port : String) : Option (Option String) :=
  h.protocol.map (fun protocol =>
    (info.get_host_port (some h.host_ip) port).map (fun host_port =>
      protocol ++ "://" ++ h.host_ip ++ ":" ++ host_port))

/-- Embeds `Builder::build_disposable`.  The runtime's responses — the id
returned by `create_container` and the post-start inspection — are
passed in explicitly.  The handle is assembled with the fixed host
interface "localhost", the name read back from the inspection, and the
default host port resolved through `get_host_port` when a default port
was declared. -/
def Builder.build_disposable (b : Builder) (created_id : String)
    (container_info : ContainerInspectResponse) : ContainerHandle :=
  let host_ip := "localhost"
  let default_host_port :=
    b.default_port.bind (fun port =>
      container_info.get_host_port (some host_ip) port)
  { container_id := created_id
    name := container_info.get_name
    host_ip := host_ip
    protocol := b.protocol
    default_host_port := default_host_port }

/-- A port-binding operation on a builder, for stating invariants over
arbitrary builder call sequences. -/
inductive BuildOp where
  | bindPort (host_port : Option String) (port : String) : BuildOp
  | bindPortAsDefault (host_port : Option String) (port : String) : BuildOp

/-- Apply one port-binding operation. -/
def applyOp (b : Builder) : BuildOp → Builder
  | BuildOp.bindPort hp p => b.bind_port hp p
  | BuildOp.bindPortAsDefault hp p => b.bind_port_as_default hp p

/-- Apply a sequence of port-binding operations left to right. -/
def applyOps (b : Builder) : List BuildOp → Builder
  | [] => b
  | op :: ops => applyOps (applyOp b op) ops

/-- Outcome of spawning the `docker stop` process in `Drop`:
`ok code` is a completed process with the given exit code (a failed stop
request surfaces as a nonzero code), `err` is a spawn failure. -/
inductive SpawnResult where
  | ok (exitCode : Int) : SpawnResult
  | err : SpawnResult

/-- The command line `Drop for ContainerHandle` runs: `docker stop <id>`
with the container id trimmed of surrounding whitespace. -/
def dockerStopCommand (h : ContainerHandle) : List String :=
  ["docker", "stop", h.container_id.trim]

/-- Embeds `Drop for ContainerHandle` as its observable effect: the list
of commands issued (always exactly the one stop command) together with
`some ()` when the drop returns normally.  The Rust code calls
`.output().unwrap()`: a completed process returns `Output` regardless of
its exit code, and the code inspects neither the code nor the output, so
a failed stop request is swallowed; only a spawn failure (`err`) makes
the `unwrap` panic, modelled as `none`. -/
def ContainerHandle.dropEffect (h : ContainerHandle)
    (spawn : List String → SpawnResult) : Option Unit × List (List String) :=
  (match spawn (dockerStopCommand h) with
   | SpawnResult.ok _ => some ()
   | SpawnResult.err => none,
   [dockerStopCommand h])

/-! ## Helper lemmas -/

theorem canonicalize_port_contains_slash (p : String) :
    (canonicalize_port p).toList.contains '/' = true := by
  unfold canonicalize_port
  by_cases h : '/' ∈ p.data
  · simp [String.toList, h]
  · simp [String.toList, h, String.data_append]

theorem canonicalize_port_fix (p : String)
    (h : p.toList.contains '/' = true) : canonicalize_port p = p := by
  unfold canonicalize_port
  simp [String.toList] at h
  simp [String.toList, h]

theorem canonicalize_port_of_no_slash (p : String)
    (h : p.toList.contains '/' = false) :
    canonicalize_port p = p ++ "/tcp" := by
  unfold canonicalize_port
  simp [String.toList] at h
  simp [String.toList, h]

theorem canonicalize_port_idem_aux (p : String) :
    canonicalize_port (canonicalize_port p) = canonicalize_port p :=
  canonicalize_port_fix _ (canonicalize_port_contains_slash p)

/-- Resolving an already-canonical port equals resolving the raw port:
`get_host_port` canonicalizes its argument first, and canonicalization
is idempotent. -/
theorem get_host_port_canon (r : ContainerInspectResponse)
    (hip : Option String) (p : String) :
    r.get_host_port hip (canonicalize_port p) = r.get_host_port hip p := by
  unfold ContainerInspectResponse.get_host_port
  rw [canonicalize_port_idem_aux]

/-- The binding scan is first-match retrieval: it returns the `host_port`
of the first binding whose interface matches (which is `none` both when
no binding matches and when the matching binding carries no port, exactly
as the Rust loop's `return binding.host_port.clone()`). -/
theorem scanBindings_eq_find (hip : Option String) (bs : List PortBinding) :
    scanBindings hip bs =
      (bs.find? (fun b => b.host_ip == hip)).bind PortBinding.host_port := by
  induction bs with
  | nil => rfl
  | cons b bs ih =>
    by_cases h : b.host_ip = hip
    · simp [scanBindings, List.find?, h]
    · have hb : (b.host_ip == hip) = false := beq_eq_false_iff_ne.mpr h
      simp [scanBindings, List.find?, h, hb, ih]

/-- When no binding's interface matches, the scan yields `none`. -/
theorem scanBindings_none (hip : Option String) (bs : List PortBinding)
    (h : ∀ b ∈ bs, b.host_ip ≠ hip) : scanBindings hip bs = none := by
  induction bs with
  | nil => rfl
  | cons b bs ih =>
    rw [scanBindings, if_neg (h b (List.mem_cons_self b bs))]
    exact ih fun b' hb' => h b' (List.mem_cons_of_mem _ hb')

/-! ## C4 — port-spec normalizer -/

/-- C4: for every port string without '/', canonicalization appends
"/tcp"; with '/', it is the identity; and it is idempotent. -/
theorem canonicalize_port_spec (p : String) :
    (p.toList.contains '/' = false → canonicalize_port p = p ++ "/tcp") ∧
    (p.toList.contains '/' = true → canonicalize_port p = p) ∧
    canonicalize_port (canonicalize_port p) = canonicalize_port p :=
  ⟨canonicalize_port_of_no_slash p, canonicalize_port_fix p,
    canonicalize_port_fix _ (canonicalize_port_contains_slash p)⟩

/-- C4 witness: concrete evaluations discharging each hypothesis. -/
theorem canonicalize_port_spec_witness :
    canonicalize_port "27017" = "27017/tcp" ∧
    canonicalize_port "53/udp" = "53/udp" ∧
    canonicalize_port (canonicalize_port "27017") = canonicalize_port "27017" :=
  ⟨(canonicalize_port_spec "27017").1 (by decide),
   (canonicalize_port_spec "53/udp").2.1 (by decide),
   (canonicalize_port_spec "27017").2.2⟩

/-! ## C1 — teardown issues exactly one stop request, failure swallowed -/

/-- C1: for every handle and every process environment, destruction
issues exactly one stop command, naming the handle's own (trimmed)
container identifier; and whatever exit code the stop request completes
with — failure included — the drop returns normally, propagating
nothing. -/
theorem dropEffect_stop_once (h : ContainerHandle)
    (spawn : List String → SpawnResult) :
    (h.dropEffect spawn).2 = [["docker", "stop", h.container_id.trim]] ∧
    ∀ code : Int,
      (h.dropEffect (fun _ => SpawnResult.ok code)).1 = some () :=
  ⟨rfl, fun _ => rfl⟩

/-! ## C2 — loopback aliases resolve against the wildcard interface -/

/-- C2: when the inspection's port map carries, for the canonicalized
container port `P`, a binding list whose first binding on interface
"0.0.0.0" has host port `H`, then querying the resolver with requested
interface "localhost" returns `H`, and so does querying it with
"127.0.0.1": both aliases are rewritten to "0.0.0.0" before matching. -/
theorem get_host_port_loopback_alias (r : ContainerInspectResponse)
    (ns : NetworkSettings) (pm : PortMap) (bs : List PortBinding)
    (P H : String)
    (h1 : r.network_settings = some ns) (h2 : ns.ports = some pm)
    (h3 : lookupPort (canonicalize_port P) pm = some (some bs))
    (h4 : bs.find? (fun b => b.host_ip == some "0.0.0.0") =
      some ⟨some "0.0.0.0", some H⟩) :
    r.get_host_port (some "localhost") P = some H ∧
    r.get_host_port (some "127.0.0.1") P = some H := by
  constructor <;>
    simp [ContainerInspectResponse.get_host_port, h1, h2, h3,
      normalize_host_ip, scanBindings_eq_find, h4]

/-- C2 witness: a concrete inspection binding 27017/tcp on 0.0.0.0 to
host port 28017, resolved through both loopback aliases. -/
theorem get_host_port_loopback_alias_witness :
    ContainerInspectResponse.get_host_port
      ⟨some ⟨some [("27017/tcp", some [⟨some "0.0.0.0", some "28017"⟩])]⟩,
        none, "cid0"⟩ (some "localhost") "27017" = some "28017" ∧
    ContainerInspectResponse.get_host_port
      ⟨some ⟨some [("27017/tcp", some [⟨some "0.0.0.0", some "28017"⟩])]⟩,
        none, "cid0"⟩ (some "127.0.0.1") "27017" = some "28017" :=
  get_host_port_loopback_alias
    ⟨some ⟨some [("27017/tcp", some [⟨some "0.0.0.0", some "28017"⟩])]⟩,
      none, "cid0"⟩
    ⟨some [("27017/tcp", some [⟨some "0.0.0.0", some "28017"⟩])]⟩
    [("27017/tcp", some [⟨some "0.0.0.0", some "28017"⟩])]
    [⟨some "0.0.0.0", some "28017"⟩] "27017" "28017"
    rfl rfl (by decide) (by decide)

/-! ## C3 — absence cases of the resolver -/

/-- C3: the resolver returns `none` (and, being a total Lean function,
cannot raise) whenever the inspection has no network settings, no port
map, no entry for the canonicalized port, an absent or empty binding
list for it, or no binding on the normalized requested interface — even
if bindings exist on other interfaces. -/
theorem get_host_port_absent (r : ContainerInspectResponse) (hip P : String)
    (h : r.network_settings = none ∨
      ∃ ns, r.network_settings = some ns ∧ (ns.ports = none ∨
        ∃ pm, ns.ports = some pm ∧
          (lookupPort (canonicalize_port P) pm = none ∨
           lookupPort (canonicalize_port P) pm = some none ∨
           ∃ bs, lookupPort (canonicalize_port P) pm = some (some bs) ∧
             ∀ b ∈ bs, b.host_ip ≠ some (normalize_host_ip hip)))) :
    r.get_host_port (some hip) P = none := by
  rcases h with h | ⟨ns, hns, h⟩
  · simp [ContainerInspectResponse.get_host_port, h]
  rcases h with h | ⟨pm, hpm, h⟩
  · simp [ContainerInspectResponse.get_host_port, hns, h]
  rcases h with h | h | ⟨bs, hbs, h⟩
  · simp [ContainerInspectResponse.get_host_port, hns, hpm, h]
  · simp [ContainerInspectResponse.get_host_port, hns, hpm, h]
  · simp [ContainerInspectResponse.get_host_port, hns, hpm, hbs]
    exact scanBindings_none _ _ h

/-- C3 witness: a port bound only on interface "10.0.0.7" yields no
answer for a "localhost" query (the empty-binding-list case is also
exercised on a second port). -/
theorem get_host_port_absent_witness :
    ContainerInspectResponse.get_host_port
      ⟨some ⟨some [("27017/tcp", some [⟨some "10.0.0.7", some "28017"⟩]),
        ("6379/tcp", some [])]⟩, none, "cid1"⟩
      (some "localhost") "27017" = none :=
  get_host_port_absent
    ⟨some ⟨some [("27017/tcp", some [⟨some "10.0.0.7", some "28017"⟩]),
      ("6379/tcp", some [])]⟩, none, "cid1"⟩ "localhost" "27017"
    (Or.inr ⟨⟨some [("27017/tcp", some [⟨some "10.0.0.7", some "28017"⟩]),
        ("6379/tcp", some [])]⟩, rfl,
      Or.inr ⟨[("27017/tcp", some [⟨some "10.0.0.7", some "28017"⟩]),
          ("6379/tcp", some [])], rfl,
        Or.inr (Or.inr ⟨[⟨some "10.0.0.7", some "28017"⟩], by decide,
          by decide⟩)⟩⟩)

/-! ## C5 — the omitted-host-port default -/

/-- C5: evaluating `bind_port` with the host port omitted.  The container
port is canonicalized *before* the omitted host port defaults to it, so
the stored host port is the canonicalized string "27017/tcp" — carrying
the protocol suffix — and not the bare port number "27017" that the
identical-port-number contract promises. -/
theorem bind_port_omitted_host_port_eval :
    ((Builder.new "mongo").bind_port none "27017").port_bindings =
      some [("27017/tcp", some [⟨some "localhost", some "27017/tcp"⟩])] ∧
    ("27017/tcp" : String) ≠ "27017" := by
  constructor
  · rfl
  · decide

/-! ## C6 — url_by shape -/

/-- C6 counterexample: a concrete handle and inspection on which
`url_by` resolves the port yet returns "mongodb://localhost:28017" —
without the trailing slash — while `url()` on the same handle produces
"mongodb://localhost:28017/"; the two shapes differ. -/
theorem url_by_trailing_slash_counterexample :
    ContainerHandle.url_by
      ⟨"cid2", none, "localhost", some "28017", some "mongodb"⟩
      ⟨some ⟨some [("27017/tcp", some [⟨some "0.0.0.0", some "28017"⟩])]⟩,
        none, "cid2"⟩ "27017" = some (some "mongodb://localhost:28017") ∧
    ContainerHandle.url
      ⟨"cid2", none, "localhost", some "28017", some "mongodb"⟩ =
      some "mongodb://localhost:28017/" ∧
    ("mongodb://localhost:28017" : String) ≠ "mongodb://localhost:28017/" := by
  refine ⟨rfl, rfl, by decide⟩

/-- C6 (amended): for a handle with a protocol, `url_by` applied to the
fresh inspection returns absent exactly when the port cannot be resolved
against the handle's fixed host interface, and otherwise returns
"{protocol}://{hostInterface}:{port}" with the resolved host port — the
`url()` shape minus the trailing slash. -/
theorem url_by_shape (h : ContainerHandle) (info : ContainerInspectResponse)
    (port p : String) (hp : h.protocol = some p) :
    (info.get_host_port (some h.host_ip) port = none →
      h.url_by info port = some none) ∧
    ∀ H, info.get_host_port (some h.host_ip) port = some H →
      h.url_by info port = some (some (p ++ "://" ++ h.host_ip ++ ":" ++ H)) := by
  constructor
  · intro hnone
    simp [ContainerHandle.url_by, hp, hnone]
  · intro H hsome
    simp [ContainerHandle.url_by, hp, hsome]

/-- C6 witness: a handle whose inspection lists no bindings resolves to
`some none` (attempted, absent, no failure raised). -/
theorem url_by_shape_witness :
    ContainerHandle.url_by
      ⟨"cid3", none, "localhost", some "28017", some "mongodb"⟩
      ⟨some ⟨some []⟩, none, "cid3"⟩ "27017" = some none :=
  (url_by_shape ⟨"cid3", none, "localhost", some "28017", some "mongodb"⟩
    ⟨some ⟨some []⟩, none, "cid3"⟩ "27017" "mongodb" rfl).1 (by decide)

/-! ## C7 — end-to-end mongo URL -/

/-- C7: building with `bind_port_as_default (some "28017") "27017"` on
image "mongo" — no protocol override — against a runtime whose post-start
inspection reports 27017/tcp bound on the wildcard interface to host
port 28017, yields a handle whose `url` is "mongodb://localhost:28017/":
protocol inferred from the image, fixed "localhost" interface, declared
default host port embedded. -/
theorem build_mongo_default_url (cid : String) (r : ContainerInspectResponse)
    (ns : NetworkSettings) (pm : PortMap)
    (h1 : r.network_settings = some ns) (h2 : ns.ports = some pm)
    (h3 : lookupPort "27017/tcp" pm =
      some (some [⟨some "0.0.0.0", some "28017"⟩])) :
    (((Builder.new "mongo").bind_port_as_default (some "28017") "27017"
      ).build_disposable cid r).url = some "mongodb://localhost:28017/" := by
  have hcanon : canonicalize_port (canonicalize_port "27017") = "27017/tcp" := by
    decide
  simp [Builder.bind_port_as_default, Builder.bind_port, Builder.new,
    Builder.build_disposable, ContainerHandle.url,
    ContainerInspectResponse.get_host_port, hcanon, h1, h2, h3,
    scanBindings, normalize_host_ip]

/-- C7 witness: the theorem applied at a concrete inspection. -/
theorem build_mongo_default_url_witness :
    (((Builder.new "mongo").bind_port_as_default (some "28017") "27017"
      ).build_disposable "cid6"
      ⟨some ⟨some [("27017/tcp", some [⟨some "0.0.0.0", some "28017"⟩])]⟩,
        none, "cid6"⟩).url = some "mongodb://localhost:28017/" :=
  build_mongo_default_url "cid6"
    ⟨some ⟨some [("27017/tcp", some [⟨some "0.0.0.0", some "28017"⟩])]⟩,
      none, "cid6"⟩
    ⟨some [("27017/tcp", some [⟨some "0.0.0.0", some "28017"⟩])]⟩
    [("27017/tcp", some [⟨some "0.0.0.0", some "28017"⟩])]
    rfl rfl (by decide)

/-! ## C8 — auto-assigned port is read back from inspection -/

/-- C8: building after `bind_port_as_default (some "0") P`, when the
post-start inspection resolves `P` on the fixed "localhost" interface to
host port `H` and `H ≠ "0"`, the handle's resolved default host port is
exactly `H` (the runtime's answer, via the resolver), is not the literal
"0", and — whenever the builder carries a protocol `p` — `url` embeds
`H`. -/
theorem build_auto_port_resolved (b0 : Builder) (P cid H : String)
    (r : ContainerInspectResponse)
    (hres : r.get_host_port (some "localhost") P = some H)
    (hne : H ≠ "0") :
    ((b0.bind_port_as_default (some "0") P).build_disposable cid r
      ).default_host_port = some H ∧
    ((b0.bind_port_as_default (some "0") P).build_disposable cid r
      ).default_host_port ≠ some "0" ∧
    ∀ p, b0.protocol = some p →
      ((b0.bind_port_as_default (some "0") P).build_disposable cid r).url =
        some (p ++ "://" ++ "localhost" ++ ":" ++ H ++ "/") := by
  have hd : ((b0.bind_port_as_default (some "0") P).build_disposable cid r
      ).default_host_port = some H := by
    simp [Builder.bind_port_as_default, Builder.bind_port,
      Builder.build_disposable, get_host_port_canon, hres]
  refine ⟨hd, ?_, ?_⟩
  · rw [hd]
    intro hc
    exact hne (Option.some.inj hc)
  · intro p hp
    simp [ContainerHandle.url, Builder.bind_port_as_default, Builder.bind_port,
      Builder.build_disposable, hp, get_host_port_canon, hres]

/-- C8 witness: a concrete build where the runtime assigned 32768 for the
requested auto port "0". -/
theorem build_auto_port_resolved_witness :
    (((Builder.new "mongo").bind_port_as_default (some "0") "27017"
      ).build_disposable "cid7"
      ⟨some ⟨some [("27017/tcp", some [⟨some "0.0.0.0", some "32768"⟩])]⟩,
        none, "cid7"⟩).default_host_port = some "32768" :=
  (build_auto_port_resolved (Builder.new "mongo") "27017" "cid7" "32768"
    ⟨some ⟨some [("27017/tcp", some [⟨some "0.0.0.0", some "32768"⟩])]⟩,
      none, "cid7"⟩ (by decide) (by decide)).1

/-! ## C9 — builder port-map keys stay canonical -/

/-- `pushBinding` only ever adds the pushed key; any property holding of
that key and of all existing keys holds of all keys afterwards. -/
theorem pushBinding_keys (P : String → Prop) (port : String)
    (binding : PortBinding) (hport : P port) :
    ∀ pbs : PortMap, (∀ kv ∈ pbs, P kv.1) →
      ∀ kv ∈ pushBinding port binding pbs, P kv.1 := by
  intro pbs
  induction pbs with
  | nil =>
    intro _ kv hkv
    rw [List.mem_singleton.mp hkv]
    exact hport
  | cons hd tl ih =>
    obtain ⟨k, v⟩ := hd
    intro hpbs kv hkv
    have htl : ∀ kv ∈ tl, P kv.1 := fun kv h => hpbs kv (List.mem_cons_of_mem _ h)
    have hk0 : P k := hpbs (k, v) (List.mem_cons_self _ _)
    by_cases hk : k = port
    · cases v with
      | some bs =>
        simp only [pushBinding, if_pos hk] at hkv
        rcases List.mem_cons.mp hkv with h | h
        · rw [h]; exact hk0
        · exact htl kv h
      | none =>
        simp only [pushBinding, if_pos hk] at hkv
        rcases List.mem_cons.mp hkv with h | h
        · rw [h]; exact hk0
        · exact htl kv h
    · simp only [pushBinding, if_neg hk] at hkv
      rcases List.mem_cons.mp hkv with h | h
      · rw [h]; exact hk0
      · exact ih htl kv h

/-- `bind_port` preserves "every stored key contains a protocol
separator": the key it adds is canonicalized first. -/
theorem bind_port_keys (b : Builder)
    (hb : ∀ kv ∈ b.port_bindings.getD [], kv.1.toList.contains '/' = true)
    (hp : Option String) (p : String) :
    ∀ kv ∈ (b.bind_port hp p).port_bindings.getD [],
      kv.1.toList.contains '/' = true := by
  intro kv hkv
  apply pushBinding_keys (fun k => k.toList.contains '/' = true)
    (canonicalize_port p) ⟨some "localhost", some (hp.getD (canonicalize_port p))⟩
    (canonicalize_port_contains_slash p) (b.port_bindings.getD []) hb kv
  simpa [Builder.bind_port] using hkv

/-- Every operation in a builder call sequence preserves the key
invariant. -/
theorem applyOps_keys (ops : List BuildOp) :
    ∀ b : Builder,
      (∀ kv ∈ b.port_bindings.getD [], kv.1.toList.contains '/' = true) →
      ∀ kv ∈ (applyOps b ops).port_bindings.getD [],
        kv.1.toList.contains '/' = true := by
  induction ops with
  | nil => intro b hb; exact hb
  | cons op ops ih =>
    intro b hb
    apply ih
    cases op with
    | bindPort hp p => exact bind_port_keys b hb hp p
    | bindPortAsDefault hp p =>
      exact bind_port_keys _ hb hp (canonicalize_port p)

/-- C9: after any sequence of `bind_port` / `bind_port_as_default`
operations on a fresh builder, every container-port key in the
port-binding map carries a protocol suffix (contains '/') and is a fixed
point of canonicalization — i.e. it is stored already fully canonical,
as if canonicalized exactly once. -/
theorem builder_port_keys_canonical (img : String) (ops : List BuildOp)
    (k : String) (v : Option (List PortBinding))
    (hmem : (k, v) ∈ (applyOps (Builder.new img) ops).port_bindings.getD []) :
    k.toList.contains '/' = true ∧ canonicalize_port k = k := by
  have hk : k.toList.contains '/' = true := by
    have := applyOps_keys ops (Builder.new img) (by
      intro kv hkv
      simp [Builder.new] at hkv) (k, v) hmem
    exact this
  exact ⟨hk, canonicalize_port_fix k hk⟩

/-- C9 witness: a concrete sequence mixing both operations; the key
"80/tcp" is stored canonical. -/
theorem builder_port_keys_canonical_witness :
    ("80/tcp", (some [⟨some "localhost", some "80/tcp"⟩]
      : Option (List PortBinding))) ∈
      (applyOps (Builder.new "mongo")
        [BuildOp.bindPort none "80",
         BuildOp.bindPortAsDefault (some "0") "6379"]
        ).port_bindings.getD [] ∧
    ("80/tcp" : String).toList.contains '/' = true ∧
    canonicalize_port "80/tcp" = "80/tcp" :=
  ⟨by decide,
    builder_port_keys_canonical "mongo"
      [BuildOp.bindPort none "80", BuildOp.bindPortAsDefault (some "0") "6379"]
      "80/tcp" (some [⟨some "localhost", some "80/tcp"⟩]) (by decide)⟩

/-! ## C10 — the protocol inference table -/

/-- Binding operations never touch the protocol field. -/
theorem applyOps_protocol (ops : List BuildOp) :
    ∀ b : Builder, (applyOps b ops).protocol = b.protocol := by
  induction ops with
  | nil => intro b; rfl
  | cons op ops ih =>
    intro b
    rw [applyOps, ih]
    cases op <;> rfl

/-- C10: the image-to-protocol table is exactly "mongo" ↦ "mongodb" and
"redis" ↦ "redis"; any other image yields no inferred protocol, and a
handle built from such a builder (after any port-binding sequence,
without a protocol override) has no `url`: the Rust code would panic. -/
theorem protocol_inference_table (img cid : String)
    (r : ContainerInspectResponse) (ops : List BuildOp)
    (h1 : img ≠ "mongo") (h2 : img ≠ "redis") :
    (Builder.new "mongo").protocol = some "mongodb" ∧
    (Builder.new "redis").protocol = some "redis" ∧
    (Builder.new img).protocol = none ∧
    ((applyOps (Builder.new img) ops).build_disposable cid r).url = none := by
  have hpr : (Builder.new img).protocol = none := by
    simp [Builder.new, h1, h2]
  refine ⟨rfl, rfl, hpr, ?_⟩
  simp [ContainerHandle.url, Builder.build_disposable, applyOps_protocol, hpr]

/-- C10 witness: image "nginx" infers no protocol and its handle's `url`
is absent. -/
theorem protocol_inference_table_witness :
    (Builder.new "mongo").protocol = some "mongodb" ∧
    (Builder.new "redis").protocol = some "redis" ∧
    (Builder.new "nginx").protocol = none ∧
    ((applyOps (Builder.new "nginx") []).build_disposable "cid8"
      ⟨none, none, "cid8"⟩).url = none :=
  protocol_inference_table "nginx" "cid8" ⟨none, none, "cid8"⟩ []
    (by decide) (by decide)

end DockerUtils
